import Mathlib

/-
Verification of the FastMssql connection-pool / transaction layer.

The Python sources under src/python are embedded shallowly below:
pure wrapper logic becomes Lean functions, the effect of issuing a SQL
statement on a connection is an environment mapping each statement to
an optional raised error, and each stateful path is replayed as an
explicit trace of issued statements plus a final outcome.  Parts of the
system that live in the compiled Rust extension (the pool proper, the
dedicated Rust connection, PoolConfig validation, pool_stats) are
modelled from the specification, as flagged on each such definition.
-/

namespace FastMssql

/-! ## Errors, exceptions and outcomes -/

/-- Kinds of transport/database errors, following the spec's error
taxonomy (section 7): the known-benign transaction-control error the
transport raises on BEGIN/COMMIT/ROLLBACK even on success, a genuine
connectivity failure, and other statement errors. -/
inductive DbError where
  | benignTransactionControl
  | connectivity
  | statement (code : Nat)
deriving DecidableEq, Repr

/-- A Python-level exception: either a database error surfacing as an
exception, or an application exception (such as the ValueError raised
inside a scope body in the tests). -/
inductive Exc where
  | db (e : DbError)
  | valueError (msg : String)
deriving DecidableEq, Repr

/-- How a block of code finished: normally, or by raising an exception
that is propagating. -/
inductive Outcome where
  | ok
  | exc (e : Exc)
deriving DecidableEq, Repr

/-- Whether an outcome is a propagating exception. -/
def Outcome.isExc : Outcome → Bool
  | .ok => false
  | .exc _ => true

/-- Behaviour of the underlying connection for each SQL statement text:
none means the statement succeeds, some e means issuing it raises e.
This models the effect of one _rust_conn.query(sql) call. -/
def QueryEnv : Type := String → Option DbError

/-! ## SingleConnection and _TransactionContextManager
    (src/python/fastmssql/__init__.py) -/

/-- A SingleConnection: a dedicated, non-pooled connection, abstracted
by the behaviour its underlying Rust connection gives to each issued
statement. -/
structure SingleConnection where
  env : QueryEnv

/-- The _TransactionContextManager produced by SingleConnection.transaction:
it wraps the connection it was created from. -/
structure TransactionContextManager where
  conn : SingleConnection

/-- SingleConnection.transaction(): returns a _TransactionContextManager
wrapping this very connection. -/
def SingleConnection.transaction (c : SingleConnection) : TransactionContextManager :=
  ⟨c⟩

/-- _TransactionContextManager.__aenter__: issues BEGIN TRANSACTION on the
wrapped connection; any error raised by that statement propagates (there is
no handler around it).  Returns the trace of issued statements and either
success or the raised error. -/
def tcmAenter (env : QueryEnv) : List String × Except DbError Unit :=
  (["BEGIN TRANSACTION"],
    match env "BEGIN TRANSACTION" with
    | none => Except.ok ()
    | some e => Except.error e)

/-- _TransactionContextManager.__aexit__ (lines 225-244): if the manager
never started, do nothing; if an exception is propagating, issue ROLLBACK
and swallow any error it raises; otherwise issue COMMIT, and if COMMIT
raises anything, issue ROLLBACK swallowing its error in turn.  Every path
ends in the Python statement return False.  Result: trace of issued
statements, and the boolean __aexit__ returns (true would suppress the
body's exception). -/
def tcmAexit (started : Bool) (excPresent : Bool) (env : QueryEnv) :
    List String × Bool :=
  if started = false then ([], false)
  else if excPresent then
    (["ROLLBACK TRANSACTION"], false)
  else
    match env "COMMIT TRANSACTION" with
    | none => (["COMMIT TRANSACTION"], false)
    | some _ => (["COMMIT TRANSACTION", "ROLLBACK TRANSACTION"], false)

/-- What the body of a scope did while it ran: the statements it issued on
the connection, and how it finished. -/
structure BodyRun where
  stmts : List String
  outcome : Outcome

/-- Running an async-with scope over a _TransactionContextManager, per
Python semantics: call __aenter__; if it raises, the body never runs and
the error propagates; otherwise run the body, then call __aexit__ with the
body's exception information; a true return from __aexit__ would suppress
the exception.  Yields the full trace of statements issued on the wrapped
connection and the scope's final outcome. -/
def TransactionContextManager.run (m : TransactionContextManager)
    (body : BodyRun) : List String × Outcome :=
  let entry := tcmAenter m.conn.env
  match entry.2 with
  | Except.error e => (entry.1, Outcome.exc (Exc.db e))
  | Except.ok _ =>
    let ex := tcmAexit true body.outcome.isExc m.conn.env
    (entry.1 ++ body.stmts ++ ex.1,
      if ex.2 then Outcome.ok else body.outcome)

/-- Transaction.__aexit__ of the pooled Transaction wrapper (lines
321-349): structurally the same handler — do nothing unless the
transaction started, ROLLBACK (errors swallowed) on a propagating
exception, otherwise COMMIT with a best-effort ROLLBACK on any COMMIT
failure, and return False on every path. -/
def transactionAexit (transactionStarted : Bool) (excPresent : Bool)
    (env : QueryEnv) : List String × Bool :=
  if transactionStarted = false then ([], false)
  else if excPresent then
    (["ROLLBACK TRANSACTION"], false)
  else
    match env "COMMIT TRANSACTION" with
    | none => (["COMMIT TRANSACTION"], false)
    | some _ => (["COMMIT TRANSACTION", "ROLLBACK TRANSACTION"], false)

/-! ## High-level Connection (src/python/mssql.py) -/

/-- A Python value passed as a SQL parameter. -/
inductive PyValue where
  | int (i : Int)
  | str (s : String)
  | null
deriving DecidableEq, Repr

/-- mssql.py Parameter: a value plus an optional SQL type hint. -/
structure Parameter where
  value : PyValue
  sql_type : Option String
deriving DecidableEq, Repr

/-- mssql.py Parameters: positional and named parameters. -/
structure Parameters where
  positional : List Parameter
  named : List (String × Parameter)
deriving DecidableEq, Repr

/-- Parameters.to_list: the positional parameter values, in order. -/
def Parameters.to_list (p : Parameters) : List PyValue :=
  p.positional.map (fun q => q.value)

/-- The parameters argument accepted by Connection.execute: absent, a
plain list of values, or a Parameters object. -/
inductive ParamArg where
  | plainList (vals : List PyValue)
  | paramsObj (p : Parameters)
deriving DecidableEq, Repr

/-- A call forwarded to the underlying Rust connection by
Connection.execute. -/
inductive RustCall where
  | executePlain (sql : String)
  | executeWithPythonParams (sql : String) (vals : List PyValue)
deriving DecidableEq, Repr

/-- The SQL statement text a forwarded call carries. -/
def RustCall.sqlOf : RustCall → String
  | .executePlain sql => sql
  | .executeWithPythonParams sql _ => sql

/-- The error Connection.execute raises when not connected. -/
inductive RuntimeErrorK where
  | notConnected
deriving DecidableEq, Repr

/-- mssql.py Connection: the high-level pooled connection wrapper; the
only state its execute path consults is the _connected flag. -/
structure Connection where
  connected : Bool
deriving DecidableEq, Repr

/-- Connection.__init__ sets _connected = False. -/
def Connection.init : Connection := ⟨false⟩

/-- Connection.connect: awaits the Rust connect and sets _connected = True. -/
def Connection.connect (c : Connection) : Connection :=
  { c with connected := true }

/-- Connection.disconnect: awaits the Rust disconnect and sets
_connected = False. -/
def Connection.disconnect (c : Connection) : Connection :=
  { c with connected := false }

/-- Connection.execute (lines 362-399): if not _connected, raise
RuntimeError before anything is sent; otherwise forward to the Rust
connection — execute(sql) when parameters is None,
execute_with_python_params(sql, parameters.to_list()) for a Parameters
object, execute_with_python_params(sql, parameters) for a plain list.
Returns the list of calls actually sent and the result. -/
def Connection.execute (c : Connection) (sql : String)
    (parameters : Option ParamArg) :
    List RustCall × Except RuntimeErrorK Unit :=
  if c.connected = false then
    ([], Except.error RuntimeErrorK.notConnected)
  else
    match parameters with
    | none =>
      ([RustCall.executePlain sql], Except.ok ())
    | some (ParamArg.paramsObj p) =>
      ([RustCall.executeWithPythonParams sql p.to_list], Except.ok ())
    | some (ParamArg.plainList vs) =>
      ([RustCall.executeWithPythonParams sql vs], Except.ok ())

/-! ## ExecutionResult (src/python/mssql.py) -/

/-- A raw row produced by the Rust layer. -/
structure PyRow where
  cells : List (String × PyValue)
deriving DecidableEq, Repr

/-- mssql.py Row: a wrapper around one raw row. -/
structure Row where
  row : PyRow
deriving DecidableEq, Repr

/-- The Rust-level result wrapped by mssql.py ExecutionResult: whether it
has rows, and the attempt to materialize the raw rows, which may fail
(modelling the try block around accessing and calling self._result.rows). -/
structure PyExecutionResult where
  has_rows : Bool
  raw_rows : Except Unit (List PyRow)
deriving Repr

/-- ExecutionResult.rows (lines 76-92): returns [] when has_rows() is
false; otherwise materializes the raw rows inside a try block, wrapping
each in Row, and returns [] if anything in that block raises. -/
def ExecutionResult.rows (r : PyExecutionResult) : List Row :=
  if r.has_rows then
    match r.raw_rows with
    | Except.ok rs => rs.map Row.mk
    | Except.error _ => []
  else []

/-- ExecutionResult.__len__ (lines 111-113): return len(self.rows()). -/
def ExecutionResult.len (r : PyExecutionResult) : Nat :=
  (ExecutionResult.rows r).length

/-! ## PoolConfig (spec-modelled: the validating _core.PoolConfig lives in
    the compiled Rust extension, not under src/) -/

/-- The error PoolConfig validation fails with. -/
inductive ConfigError where
  | invalid
deriving DecidableEq, Repr

/-- Pool configuration value object, fields as in the spec's data model. -/
structure PoolConfig where
  max_size : Nat
  min_idle : Option Nat
  max_lifetime_secs : Option Nat
  idle_timeout_secs : Option Nat
  connection_timeout_secs : Option Nat
deriving DecidableEq, Repr

/-- Modelled from the spec: the Rust _core.PoolConfig constructor is not
under src/; per the spec it validates max_size >= 1 and, when min_idle is
given, min_idle <= max_size, failing with a ConfigError otherwise. -/
def PoolConfig.make (max_size : Nat) (min_idle : Option Nat)
    (max_lifetime_secs idle_timeout_secs connection_timeout_secs : Option Nat) :
    Except ConfigError PoolConfig :=
  if max_size < 1 then Except.error ConfigError.invalid
  else
    match min_idle with
    | some m =>
      if max_size < m then Except.error ConfigError.invalid
      else Except.ok ⟨max_size, some m, max_lifetime_secs,
        idle_timeout_secs, connection_timeout_secs⟩
    | none =>
      Except.ok ⟨max_size, none, max_lifetime_secs,
        idle_timeout_secs, connection_timeout_secs⟩

/-- Modelled from the spec: mutating max_size after construction
re-validates against the current min_idle and fails, leaving the config
unchanged, when the invariant would be violated; in this functional
embedding failure returns an error and produces no new config, so the
caller's config value is untouched. -/
def PoolConfig.set_max_size (c : PoolConfig) (n : Nat) :
    Except ConfigError PoolConfig :=
  if n < 1 then Except.error ConfigError.invalid
  else
    match c.min_idle with
    | some m =>
      if n < m then Except.error ConfigError.invalid
      else Except.ok { c with max_size := n }
    | none => Except.ok { c with max_size := n }

/-- The PoolConfig invariant: max_size >= 1 and min_idle (when given) is
at most max_size. -/
def PoolConfig.inv (c : PoolConfig) : Prop :=
  1 ≤ c.max_size ∧ c.min_idle.getD 0 ≤ c.max_size

instance (c : PoolConfig) : Decidable c.inv := by
  unfold PoolConfig.inv; infer_instance

/-! ## Connection pool state machine (spec-modelled: the pool proper lives
    in the compiled Rust extension, not under src/) -/

/-- Modelled from the spec: the pool's bookkeeping counts — connections
currently leased to callers, connections idle in the pool, and the number
of distinct physical connections ever opened. -/
structure PoolState where
  leased : Nat
  idle : Nat
  created : Nat
deriving DecidableEq, Repr

/-- Number of physical connections currently open (leased plus idle). -/
def PoolState.openCount (s : PoolState) : Nat :=
  s.leased + s.idle

/-- A freshly constructed, not pre-warmed pool. -/
def initialPool : PoolState := ⟨0, 0, 0⟩

/-- Operations the pool serializes under its mutual-exclusion discipline. -/
inductive PoolOp where
  | checkout
  | checkin
  | closeIdle
deriving DecidableEq, Repr

/-- Modelled from the spec: one serialized pool transition.  checkout
reuses an idle connection when one exists, otherwise opens a new physical
connection only when the current total is below max_size, and otherwise
fails with PoolTimeout leaving the state unchanged; checkin returns a
leased connection to idle; closeIdle closes an idle connection (idle
timeout or max_lifetime retirement). -/
def poolStep (max_size : Nat) (s : PoolState) : PoolOp → PoolState
  | .checkout =>
    if 0 < s.idle then
      { s with idle := s.idle - 1, leased := s.leased + 1 }
    else if s.leased + s.idle < max_size then
      { s with leased := s.leased + 1, created := s.created + 1 }
    else s
  | .checkin =>
    if 0 < s.leased then
      { s with leased := s.leased - 1, idle := s.idle + 1 }
    else s
  | .closeIdle =>
    if 0 < s.idle then { s with idle := s.idle - 1 }
    else s

/-- Replay a sequence of pool operations. -/
def poolRun (max_size : Nat) (s : PoolState) (ops : List PoolOp) : PoolState :=
  ops.foldl (poolStep max_size) s

/-! ## DedicatedConnection session affinity (spec-modelled: the dedicated
    Rust connection is not under src/; the SingleConnection wrapper in
    src/python/fastmssql/__init__.py always delegates to the one
    _rust_conn it was constructed with) -/

/-- Modelled from the spec: a dedicated connection owns exactly one
physical connection, identified by its server-side session id, for its
whole lifetime, plus the transaction flag of its state machine. -/
structure DedicatedConnection where
  session_id : Nat
  in_transaction : Bool
deriving DecidableEq, Repr

/-- Operations issued on a dedicated connection. -/
inductive DCOp where
  | beginTx
  | commitTx
  | rollbackTx
  | query (sql : String)
  | execute (sql : String)
deriving DecidableEq, Repr

/-- Modelled from the spec: every operation runs on the one owned
physical connection; query/execute observe its session identity (as the
tests do via SELECT SPID), begin/commit/rollback only move the
transaction state, and nothing ever swaps the owned connection. -/
def dcStep (c : DedicatedConnection) : DCOp → DedicatedConnection × Option Nat
  | .beginTx => ({ c with in_transaction := true }, none)
  | .commitTx => ({ c with in_transaction := false }, none)
  | .rollbackTx => ({ c with in_transaction := false }, none)
  | .query _ => (c, some c.session_id)
  | .execute _ => (c, some c.session_id)

/-- Replay a sequence of operations, collecting the session identities
observed by the query/execute calls in issuance order. -/
def dcRun (c : DedicatedConnection) : List DCOp → DedicatedConnection × List Nat
  | [] => (c, [])
  | op :: ops =>
    let st := dcStep c op
    let rest := dcRun st.1 ops
    (rest.1, (st.2.toList) ++ rest.2)

/-! ## pool_stats (spec-modelled: the Rust Connection.pool_stats is not
    under src/) -/

/-- Modelled from the spec: the pool statistics snapshot, with the key
set taken from the documented contract of Connection.pool_stats in
src/python/fastmssql/__init__.py (keys: connected, connections,
idle_connections, active_connections, max_size, min_idle), each value
read from the pool's current state and configuration. -/
def pool_stats (connected : Bool) (s : PoolState) (max_size min_idle : Nat) :
    List (String × Nat) :=
  [("connected", if connected then 1 else 0),
   ("connections", s.leased + s.idle),
   ("idle_connections", s.idle),
   ("active_connections", s.leased),
   ("max_size", max_size),
   ("min_idle", min_idle)]

/-- The key set the claim under review ascribes to the statistics mapping. -/
def claimedStatsKeys : List String :=
  ["connections", "idle_connections", "active_connections", "max_size", "min_idle"]

/-! ## Concrete fixtures used to instantiate the theorems -/

/-- A dedicated connection on which every statement succeeds. -/
def envOkConn : SingleConnection := ⟨fun _ => none⟩

/-- A dedicated connection whose BEGIN raises the benign
transaction-control error (the tiberius quirk) and whose every other
statement succeeds. -/
def beginBenignFails : SingleConnection :=
  ⟨fun s => if s = "BEGIN TRANSACTION"
    then some DbError.benignTransactionControl else none⟩

/-- A dedicated connection whose COMMIT raises a genuine connectivity
error and whose every other statement succeeds. -/
def commitConnectivityFails : SingleConnection :=
  ⟨fun s => if s = "COMMIT TRANSACTION"
    then some DbError.connectivity else none⟩

/-! ## Theorems -/

/-- Helper: _TransactionContextManager.__aexit__ returns False on every
path, whatever the statement behaviour. -/
theorem tcmAexit_snd_false (started excPresent : Bool) (env : QueryEnv) :
    (tcmAexit started excPresent env).2 = false := by
  unfold tcmAexit
  cases started with
  | false => simp
  | true =>
    cases excPresent with
    | true => simp
    | false => cases env "COMMIT TRANSACTION" <;> simp

/-- Helper: Transaction.__aexit__ returns False on every path, whatever
the statement behaviour. -/
theorem transactionAexit_snd_false (transactionStarted excPresent : Bool)
    (env : QueryEnv) :
    (transactionAexit transactionStarted excPresent env).2 = false := by
  unfold transactionAexit
  cases transactionStarted with
  | false => simp
  | true =>
    cases excPresent with
    | true => simp
    | false => cases env "COMMIT TRANSACTION" <;> simp

/-- C1: counterexample.  On a connection whose COMMIT raises a genuine
connectivity error, a scope whose body completes normally still finishes
with outcome ok: the non-benign error raised by the COMMIT statement was
silently suppressed by the blanket except-Exception handler in
_TransactionContextManager.__aexit__, refuting the claim that at the
transaction-control call sites only the benign error kind is ever
suppressed and every other error propagates. -/
theorem c1_counterexample :
    commitConnectivityFails.env "COMMIT TRANSACTION"
        = some DbError.connectivity
    ∧ (commitConnectivityFails.transaction.run ⟨[], Outcome.ok⟩).2
        = Outcome.ok
    ∧ "COMMIT TRANSACTION"
        ∈ (commitConnectivityFails.transaction.run ⟨[], Outcome.ok⟩).1 := by
  refine ⟨rfl, rfl, ?_⟩
  decide

/-- C1 (amended): the context-manager paths use blanket except-Exception
handlers, not a match on the benign error kind.  Once entry succeeds,
every error raised by COMMIT or ROLLBACK on exit — benign or genuine —
is suppressed and the scope's outcome is exactly the body's outcome; on
entry nothing is suppressed, so even the benign BEGIN error propagates
to the caller. -/
theorem c1_blanket_suppression (c : SingleConnection) (body : BodyRun) :
    (∀ e, c.env "BEGIN TRANSACTION" = some e →
      (c.transaction.run body).2 = Outcome.exc (Exc.db e)) ∧
    (c.env "BEGIN TRANSACTION" = none →
      (c.transaction.run body).2 = body.outcome) := by
  constructor
  · intro e he
    simp [TransactionContextManager.run, SingleConnection.transaction,
      tcmAenter, he]
  · intro he
    have hex := tcmAexit_snd_false true body.outcome.isExc c.env
    simp [TransactionContextManager.run, SingleConnection.transaction,
      tcmAenter, he, hex]

/-- C1 (amended) witness at concrete inputs: the benign BEGIN error
propagates out of scope entry, and on an all-success connection a normal
body yields a normal scope. -/
theorem c1_blanket_suppression_witness :
    (beginBenignFails.transaction.run ⟨[], Outcome.ok⟩).2
        = Outcome.exc (Exc.db DbError.benignTransactionControl)
    ∧ (envOkConn.transaction.run ⟨[], Outcome.ok⟩).2 = Outcome.ok :=
  ⟨(c1_blanket_suppression beginBenignFails ⟨[], Outcome.ok⟩).1
      DbError.benignTransactionControl rfl,
   (c1_blanket_suppression envOkConn ⟨[], Outcome.ok⟩).2 rfl⟩

/-- C2: for every transaction scope over a dedicated connection, when the
scope body raises a propagating exception the exit path issues ROLLBACK,
and when the body completes normally the exit path issues COMMIT. -/
theorem c2_scope_commit_rollback (c : SingleConnection) (body : BodyRun)
    (hentry : c.env "BEGIN TRANSACTION" = none) :
    (body.outcome.isExc = true →
      "ROLLBACK TRANSACTION" ∈ (c.transaction.run body).1) ∧
    (body.outcome.isExc = false →
      "COMMIT TRANSACTION" ∈ (c.transaction.run body).1) := by
  constructor <;> intro hb <;>
    cases hcm : c.env "COMMIT TRANSACTION" <;>
      simp [TransactionContextManager.run, SingleConnection.transaction,
        tcmAenter, hentry, tcmAexit, hb, hcm]

/-- C2 witness at concrete inputs: a body that raises a ValueError leads
to a ROLLBACK being issued, a body that completes leads to a COMMIT. -/
theorem c2_scope_commit_rollback_witness :
    "ROLLBACK TRANSACTION"
        ∈ (envOkConn.transaction.run
            ⟨["INSERT 1"], Outcome.exc (Exc.valueError "boom")⟩).1
    ∧ "COMMIT TRANSACTION"
        ∈ (envOkConn.transaction.run ⟨["INSERT 1"], Outcome.ok⟩).1 :=
  ⟨(c2_scope_commit_rollback envOkConn
      ⟨["INSERT 1"], Outcome.exc (Exc.valueError "boom")⟩ rfl).1 rfl,
   (c2_scope_commit_rollback envOkConn ⟨["INSERT 1"], Outcome.ok⟩ rfl).2 rfl⟩

/-- C3: the exit handler never suppresses a body exception: after the
exit work (rollback/commit) the scope's outcome is still the body's
exception; and the pooled Transaction.__aexit__ likewise returns False
on every path, so it never suppresses either. -/
theorem c3_exception_propagates (c : SingleConnection) (body : BodyRun)
    (e : Exc)
    (hentry : c.env "BEGIN TRANSACTION" = none)
    (hbody : body.outcome = Outcome.exc e) :
    (c.transaction.run body).2 = Outcome.exc e ∧
    ∀ (transactionStarted excPresent : Bool) (env : QueryEnv),
      (transactionAexit transactionStarted excPresent env).2 = false := by
  refine ⟨?_, fun ts ep env => transactionAexit_snd_false ts ep env⟩
  have hex := tcmAexit_snd_false true (Outcome.exc e).isExc c.env
  simp [TransactionContextManager.run, SingleConnection.transaction,
    tcmAenter, hentry, hbody, hex]

/-- C3 witness at a concrete input: a ValueError raised inside the body
of a scope over an all-success connection still propagates out of the
scope. -/
theorem c3_exception_propagates_witness :
    (envOkConn.transaction.run
        ⟨["INSERT 1"], Outcome.exc (Exc.valueError "boom")⟩).2
      = Outcome.exc (Exc.valueError "boom")
    ∧ (transactionAexit true false envOkConn.env).2 = false :=
  ⟨(c3_exception_propagates envOkConn
      ⟨["INSERT 1"], Outcome.exc (Exc.valueError "boom")⟩
      (Exc.valueError "boom") rfl rfl).1,
   (c3_exception_propagates envOkConn
      ⟨["INSERT 1"], Outcome.exc (Exc.valueError "boom")⟩
      (Exc.valueError "boom") rfl rfl).2 true false envOkConn.env⟩

/-- C4: entering a transaction scope obtained from a dedicated single
connection issues BEGIN TRANSACTION on the underlying connection as the
very first statement of the scope, before anything the body issues; and
when the BEGIN raises, nothing of the body is ever issued. -/
theorem c4_begin_first (c : SingleConnection) (body : BodyRun) :
    (∃ rest, (c.transaction.run body).1 = "BEGIN TRANSACTION" :: rest) ∧
    (∀ e, c.env "BEGIN TRANSACTION" = some e →
      (c.transaction.run body).1 = ["BEGIN TRANSACTION"]) := by
  constructor
  · cases he : c.env "BEGIN TRANSACTION" with
    | none =>
      exact ⟨body.stmts ++ (tcmAexit true body.outcome.isExc c.env).1, by
        simp [TransactionContextManager.run, SingleConnection.transaction,
          tcmAenter, he]⟩
    | some e =>
      exact ⟨[], by
        simp [TransactionContextManager.run, SingleConnection.transaction,
          tcmAenter, he]⟩
  · intro e he
    simp [TransactionContextManager.run, SingleConnection.transaction,
      tcmAenter, he]

/-- C4 witness at concrete inputs: on an all-success connection the first
issued statement of a scope is BEGIN TRANSACTION, and on a connection
whose BEGIN raises, the body's statements are never issued. -/
theorem c4_begin_first_witness :
    (∃ rest, (envOkConn.transaction.run ⟨["INSERT 1"], Outcome.ok⟩).1
        = "BEGIN TRANSACTION" :: rest)
    ∧ (beginBenignFails.transaction.run ⟨["INSERT 1"], Outcome.ok⟩).1
        = ["BEGIN TRANSACTION"] :=
  ⟨(c4_begin_first envOkConn ⟨["INSERT 1"], Outcome.ok⟩).1,
   (c4_begin_first beginBenignFails ⟨["INSERT 1"], Outcome.ok⟩).2
      DbError.benignTransactionControl rfl⟩

/-- C5: PoolConfig construction fails with a ConfigError exactly when
max_size < 1 or a given min_idle exceeds max_size; every successfully
constructed config satisfies the invariant; mutating max_size
re-validates against the current min_idle and fails when the new value
would violate it (in this functional embedding failure produces no new
config, so every field of the caller's config stands unchanged); and
every successful mutation sets max_size to the requested value, leaves
every other field unchanged, and preserves the invariant. -/
theorem c5_poolconfig_validation
    (ms : Nat) (mi : Option Nat) (ml it ct : Option Nat)
    (c : PoolConfig) (n : Nat) :
    (PoolConfig.make ms mi ml it ct = Except.error ConfigError.invalid ↔
      ms < 1 ∨ ∃ m, mi = some m ∧ ms < m) ∧
    (∀ c0, PoolConfig.make ms mi ml it ct = Except.ok c0 → c0.inv) ∧
    (∀ m, c.min_idle = some m → n < m →
      c.set_max_size n = Except.error ConfigError.invalid) ∧
    (∀ c1, c.set_max_size n = Except.ok c1 →
      c1.max_size = n ∧ c1.min_idle = c.min_idle ∧
      c1.max_lifetime_secs = c.max_lifetime_secs ∧
      c1.idle_timeout_secs = c.idle_timeout_secs ∧
      c1.connection_timeout_secs = c.connection_timeout_secs ∧
      c1.inv) := by
  refine ⟨⟨?_, ?_⟩, ?_, ?_, ?_⟩
  · intro h
    by_cases h1 : ms < 1
    · exact Or.inl h1
    · right
      cases hmi : mi with
      | none => simp [PoolConfig.make, hmi, h1] at h
      | some m =>
        by_cases h2 : ms < m
        · exact ⟨m, rfl, h2⟩
        · simp [PoolConfig.make, hmi, h1, h2] at h
  · intro h
    rcases h with h1 | ⟨m, hm, h2⟩
    · simp [PoolConfig.make, h1]
    · subst hm
      by_cases h1 : ms < 1
      · simp [PoolConfig.make, h1]
      · simp [PoolConfig.make, h1, h2]
  · intro c0 h
    by_cases h1 : ms < 1
    · simp [PoolConfig.make, h1] at h
    · cases hmi : mi with
      | none =>
        simp [PoolConfig.make, h1, hmi] at h
        subst h
        refine ⟨by simp; omega, by simp⟩
      | some m =>
        by_cases h2 : ms < m
        · simp [PoolConfig.make, h1, hmi, h2] at h
        · simp [PoolConfig.make, h1, hmi, h2] at h
          subst h
          refine ⟨by simp; omega, by simp; omega⟩
  · intro m hm h2
    by_cases h1 : n < 1
    · simp [PoolConfig.set_max_size, h1]
    · simp [PoolConfig.set_max_size, h1, hm, h2]
  · intro c1 h
    by_cases h1 : n < 1
    · simp [PoolConfig.set_max_size, h1] at h
    · cases hmi : c.min_idle with
      | none =>
        simp [PoolConfig.set_max_size, h1, hmi] at h
        subst h
        refine ⟨rfl, by simp [hmi], rfl, rfl, rfl, by simp; omega, by simp⟩
      | some m =>
        by_cases h2 : n < m
        · simp [PoolConfig.set_max_size, h1, hmi, h2] at h
        · simp [PoolConfig.set_max_size, h1, hmi, h2] at h
          subst h
          refine ⟨rfl, by simp [hmi], rfl, rfl, rfl, by simp; omega,
            by simp; omega⟩

/-- C5 witness at the spec's own example inputs: PoolConfig(max_size=5,
min_idle=10) fails construction; PoolConfig(max_size=10, min_idle=2)
mutated to max_size=1 fails mutation; and the same config mutated to
max_size=15 succeeds with the invariant intact. -/
theorem c5_poolconfig_validation_witness :
    PoolConfig.make 5 (some 10) none none none
        = Except.error ConfigError.invalid
    ∧ PoolConfig.set_max_size ⟨10, some 2, none, none, none⟩ 1
        = Except.error ConfigError.invalid
    ∧ (⟨15, some 2, none, none, none⟩ : PoolConfig).inv :=
  ⟨(c5_poolconfig_validation 5 (some 10) none none none
      ⟨10, some 2, none, none, none⟩ 1).1.mpr (Or.inr ⟨10, rfl, by decide⟩),
   (c5_poolconfig_validation 5 (some 10) none none none
      ⟨10, some 2, none, none, none⟩ 1).2.2.1 2 rfl (by decide),
   ((c5_poolconfig_validation 10 (some 2) none none none
      ⟨10, some 2, none, none, none⟩ 15).2.2.2
      ⟨15, some 2, none, none, none⟩ rfl).2.2.2.2.2⟩

/-- Helper: one serialized pool transition never pushes the number of
open connections (leased plus idle) above max_size. -/
theorem poolStep_open_le (M : Nat) (s : PoolState) (op : PoolOp)
    (h : s.openCount ≤ M) : (poolStep M s op).openCount ≤ M := by
  unfold PoolState.openCount at h ⊢
  cases op <;>
    · unfold poolStep
      split_ifs <;> simp_all <;> omega

/-- Helper: replaying any operation sequence preserves the open-count
bound. -/
theorem poolRun_open_le (M : Nat) (ops : List PoolOp) (s : PoolState)
    (h : s.openCount ≤ M) : (poolRun M s ops).openCount ≤ M := by
  induction ops generalizing s with
  | nil => exact h
  | cons op ops ih => exact ih _ (poolStep_open_le M s op h)

/-- Helper: while no idle connection is ever closed, the number of
distinct physical connections ever opened equals the number currently
open. -/
theorem poolRun_created_eq (M : Nat) (ops : List PoolOp) (s : PoolState)
    (hno : PoolOp.closeIdle ∉ ops)
    (h : s.created = s.openCount) :
    (poolRun M s ops).created = (poolRun M s ops).openCount := by
  induction ops generalizing s with
  | nil => exact h
  | cons op ops ih =>
    have hops : PoolOp.closeIdle ∉ ops := fun hm => hno (List.mem_cons_of_mem _ hm)
    have hop : op ≠ PoolOp.closeIdle := by
      intro he; exact hno (he ▸ List.mem_cons_self _ _)
    apply ih _ hops
    unfold PoolState.openCount at h ⊢
    cases op with
    | checkout =>
      unfold poolStep
      split_ifs <;> simp_all <;> omega
    | checkin =>
      unfold poolStep
      split_ifs <;> simp_all <;> omega
    | closeIdle => exact absurd rfl hop

/-- C6: for a pool with max_size = M, from any state within the bound,
replaying any serialized sequence of checkouts, checkins and idle closes
keeps leased + idle at or below M — a saturated checkout times out
without opening anything — and in a run from a fresh pool in which no
connection is ever closed (the reuse-test scenario) the number of
distinct physical connections ever opened, hence observed by the callers,
is at most M. -/
theorem c6_pool_bound (M : Nat) (ops : List PoolOp) (s : PoolState)
    (h : s.openCount ≤ M) :
    (poolRun M s ops).openCount ≤ M ∧
    (PoolOp.closeIdle ∉ ops → (poolRun M initialPool ops).created ≤ M) := by
  refine ⟨poolRun_open_le M ops s h, fun hno => ?_⟩
  have h1 := poolRun_created_eq M ops initialPool hno rfl
  have h2 := poolRun_open_le M ops initialPool
    (by simp [initialPool, PoolState.openCount])
  omega

/-- C6 witness: ten checkout/checkin operations against a fresh pool with
max_size = 2 keep at most two connections open and create at most two
distinct physical connections. -/
theorem c6_pool_bound_witness :
    (poolRun 2 initialPool
        [PoolOp.checkout, PoolOp.checkout, PoolOp.checkout, PoolOp.checkin,
         PoolOp.checkout, PoolOp.checkin, PoolOp.checkin, PoolOp.checkout,
         PoolOp.checkout, PoolOp.checkout]).openCount ≤ 2
    ∧ (poolRun 2 initialPool
        [PoolOp.checkout, PoolOp.checkout, PoolOp.checkout, PoolOp.checkin,
         PoolOp.checkout, PoolOp.checkin, PoolOp.checkin, PoolOp.checkout,
         PoolOp.checkout, PoolOp.checkout]).created ≤ 2 :=
  ⟨(c6_pool_bound 2
      [PoolOp.checkout, PoolOp.checkout, PoolOp.checkout, PoolOp.checkin,
       PoolOp.checkout, PoolOp.checkin, PoolOp.checkin, PoolOp.checkout,
       PoolOp.checkout, PoolOp.checkout] initialPool (by decide)).1,
   (c6_pool_bound 2
      [PoolOp.checkout, PoolOp.checkout, PoolOp.checkout, PoolOp.checkin,
       PoolOp.checkout, PoolOp.checkin, PoolOp.checkin, PoolOp.checkout,
       PoolOp.checkout, PoolOp.checkout] initialPool (by decide)).2 (by decide)⟩

/-- Helper: no dedicated-connection operation changes the identity of the
owned physical connection. -/
theorem dcStep_session (c : DedicatedConnection) (op : DCOp) :
    (dcStep c op).1.session_id = c.session_id := by
  cases op <;> rfl

/-- Helper: every session identity observed while replaying operations on
a dedicated connection is the connection's own session id. -/
theorem dcRun_obs (c : DedicatedConnection) (ops : List DCOp) (x : Nat)
    (hx : x ∈ (dcRun c ops).2) : x = c.session_id := by
  induction ops generalizing c with
  | nil => simp [dcRun] at hx
  | cons op ops ih =>
    simp only [dcRun, List.mem_append] at hx
    rcases hx with hx | hx
    · cases op <;> simp [dcStep] at hx <;> exact hx
    · have h := ih (dcStep c op).1 hx
      rw [h, dcStep_session]

/-- C7: on one dedicated connection every query/execute call — in
particular every call issued between begin() and the matching
commit()/rollback() — observes the session identity of the one owned
physical connection, so any two such calls report the identical server
session. -/
theorem c7_session_affinity (c : DedicatedConnection) (ops : List DCOp)
    (x y : Nat) (hx : x ∈ (dcRun c ops).2) (hy : y ∈ (dcRun c ops).2) :
    x = c.session_id ∧ x = y := by
  have h1 := dcRun_obs c ops x hx
  have h2 := dcRun_obs c ops y hy
  exact ⟨h1, h1.trans h2.symm⟩

/-- C7 witness: on a dedicated connection with session id 42, the
identities observed by two queries inside a begin/commit window both
equal 42. -/
theorem c7_session_affinity_witness :
    (42 : Nat) = (⟨42, false⟩ : DedicatedConnection).session_id
    ∧ (42 : Nat) = 42 :=
  c7_session_affinity ⟨42, false⟩
    [DCOp.beginTx, DCOp.query "SELECT @@SPID as id",
     DCOp.execute "INSERT INTO t VALUES (1)",
     DCOp.query "SELECT @@SPID as id", DCOp.commitTx]
    42 42 (by decide) (by decide)

/-- C8: counterexample — at a concrete snapshot the key list of the
statistics mapping is not the claimed five-key set: it also contains the
key connected, present in the documented contract of
Connection.pool_stats but absent from the claim. -/
theorem c8_counterexample :
    (pool_stats true ⟨1, 2, 3⟩ 10 2).map Prod.fst ≠ claimedStatsKeys
    ∧ "connected" ∈ (pool_stats true ⟨1, 2, 3⟩ 10 2).map Prod.fst
    ∧ "connected" ∉ claimedStatsKeys := by
  decide

/-- C8 (amended): the pool statistics mapping's keys are connected plus
the five claimed keys — connections, idle_connections,
active_connections, max_size, min_idle — and each of the five reflects
the point-in-time snapshot: total open, idle and leased counts and the
configured bounds. -/
theorem c8_pool_stats_keys (connected : Bool) (s : PoolState)
    (M mi : Nat) :
    (pool_stats connected s M mi).map Prod.fst
        = "connected" :: claimedStatsKeys
    ∧ ("connections", s.leased + s.idle) ∈ pool_stats connected s M mi
    ∧ ("idle_connections", s.idle) ∈ pool_stats connected s M mi
    ∧ ("active_connections", s.leased) ∈ pool_stats connected s M mi
    ∧ ("max_size", M) ∈ pool_stats connected s M mi
    ∧ ("min_idle", mi) ∈ pool_stats connected s M mi := by
  simp [pool_stats, claimedStatsKeys]

/-- C9: Connection.execute raises RuntimeError and forwards no statement
whenever the connection is not connected — on a freshly constructed
Connection and after disconnect() — and after connect() it forwards
exactly one call to the Rust layer carrying the given SQL statement. -/
theorem c9_execute_gating (sql : String) (params : Option ParamArg)
    (c : Connection) :
    (c.connected = false →
      c.execute sql params = ([], Except.error RuntimeErrorK.notConnected)) ∧
    Connection.init.execute sql params
        = ([], Except.error RuntimeErrorK.notConnected) ∧
    (c.disconnect).execute sql params
        = ([], Except.error RuntimeErrorK.notConnected) ∧
    ((c.connect).execute sql params).2 = Except.ok () ∧
    ((c.connect).execute sql params).1.map RustCall.sqlOf = [sql] := by
  refine ⟨fun h => by simp [Connection.execute, h],
    by simp [Connection.init, Connection.execute],
    by simp [Connection.disconnect, Connection.execute], ?_, ?_⟩ <;>
  · cases params with
    | none =>
      simp [Connection.connect, Connection.execute, RustCall.sqlOf]
    | some pa =>
      cases pa <;>
        simp [Connection.connect, Connection.execute, RustCall.sqlOf]

/-- C9 witness: on a fresh Connection, execute raises before any
statement is sent; after connect, the same call forwards the statement. -/
theorem c9_execute_gating_witness :
    Connection.init.execute "SELECT 1" none
        = ([], Except.error RuntimeErrorK.notConnected)
    ∧ ((Connection.init.connect).execute "SELECT 1" none).1.map
        RustCall.sqlOf = ["SELECT 1"] :=
  ⟨(c9_execute_gating "SELECT 1" none Connection.init).1 rfl,
   (c9_execute_gating "SELECT 1" none Connection.init).2.2.2.2⟩

/-- C10: ExecutionResult.rows is a total function into lists: it returns
the empty list whenever has_rows() is false or materializing the raw rows
fails, returns the wrapped rows when materialization succeeds, and
__len__ always equals the length of the list rows() returns. -/
theorem c10_rows_total (r : PyExecutionResult) :
    (r.has_rows = false → ExecutionResult.rows r = []) ∧
    (∀ u, r.raw_rows = Except.error u → ExecutionResult.rows r = []) ∧
    (∀ rs, r.has_rows = true → r.raw_rows = Except.ok rs →
      ExecutionResult.rows r = rs.map Row.mk) ∧
    ExecutionResult.len r = (ExecutionResult.rows r).length := by
  refine ⟨fun h => ?_, fun u hu => ?_, fun rs h hr => ?_, rfl⟩
  · simp [ExecutionResult.rows, h]
  · simp [ExecutionResult.rows, hu]
  · simp [ExecutionResult.rows, h, hr]

/-- C10 witness at concrete results: a result whose materialization
fails yields [], a rowless result yields [], and length agrees with
rows() on the failing result. -/
theorem c10_rows_total_witness :
    ExecutionResult.rows ⟨true, Except.error ()⟩ = []
    ∧ ExecutionResult.rows ⟨false, Except.ok [⟨[("a", PyValue.int 1)]⟩]⟩ = []
    ∧ ExecutionResult.len ⟨true, Except.error ()⟩
        = (ExecutionResult.rows ⟨true, Except.error ()⟩).length :=
  ⟨(c10_rows_total ⟨true, Except.error ()⟩).2.1 () rfl,
   (c10_rows_total ⟨false, Except.ok [⟨[("a", PyValue.int 1)]⟩]⟩).1 rfl,
   (c10_rows_total ⟨true, Except.error ()⟩).2.2.2⟩

end FastMssql
